import Mathlib

/-!
Verification of the movie-recommendation web client's session and data
synchronization core (`src/frontend/src/App.jsx`, with the earlier revision
in `src/unnamed/part_000`).

The React component state is embedded as an explicit `AppState` record.
Event handlers and effects become state-transition functions; each network
call site takes the settled network outcome as an explicit parameter
(`Except NetErr _`), and fallible handlers additionally report which
network calls they issued, so that "no network call" claims are statable.
React's `useEffect` reactions to a state slice changing are composed into
the handler that changes the slice, in the declaration order of the
effects in the source file.
-/

/-- Message banner kinds: the `message.type` field of the component
(`''`, `'success'` or `'error'`). -/
inductive MsgType
  | empty
  | success
  | error
deriving DecidableEq, Repr

/-- The `page` state: `'login'`, `'register'` or `'app'`. -/
inductive Page
  | login
  | registerPage
  | app
deriving DecidableEq, Repr

/-- `{id, username, email}` as returned by `GET /users/me/`. -/
structure User where
  id : Nat
  username : String
  email : String
deriving DecidableEq, Repr

/-- A movie as returned by the backend. Identity is `id`. -/
structure Movie where
  id : Nat
  title : String
  release_year : Nat
  genres : String
  description : String
  poster_url : String
deriving DecidableEq, Repr

/-- A watchlist item `{id, movie_id, added_at, movie}` with the embedded
`Movie` payload (the code reads ids via `item.movie.id`). -/
structure WatchlistEntry where
  id : Nat
  movie_id : Nat
  added_at : String
  movie : Movie
deriving DecidableEq, Repr

/-- A failed HTTP response: `error.response.status` and the optional
`error.response.data.detail` string. -/
structure NetErr where
  code : Nat
  detail : Option String
deriving DecidableEq, Repr

/-- The network calls the client can issue, for stating which calls a
handler performed. -/
inductive NetCall
  | postRatings (movieId : Nat) (score : ℚ)
  | postWatchlist (movieId : Nat)
  | deleteWatchlist (movieId : Nat)
  | getRecs
  | getRatings
  | getWatchlist
  | getUser
  | getSearch (q : String)
  | getGenre (g : String)
deriving DecidableEq, Repr

/-- The `userRatings` JS object, `{ movie_id: score }`: an insertion-ordered
key/value list with unique keys, as JS objects are. -/
abbrev RMap := List (Nat × ℚ)

/-- JS object property assignment `acc[k] = v` (and the spread update
`{...prev, [k]: v}`): overwrite the value if the key exists, else append. -/
def rmapSet : RMap → Nat → ℚ → RMap
  | [], k, v => [(k, v)]
  | (k', v') :: rest, k, v =>
      if k' = k then (k', v) :: rest else (k', v') :: rmapSet rest k v

/-- JS object property read `m[k]` (keys are unique, so the first match
is the entry). -/
def rmapLookup : RMap → Nat → Option ℚ
  | [], _ => none
  | p :: rest, k => if p.1 = k then some p.2 else rmapLookup rest k

/-- The `watchlistIds` JS `Set`, kept as an insertion-ordered duplicate-free
list of movie ids. -/
abbrev IdSet := List Nat

/-- JS `Set.prototype.add`: no-op when the element is already present. -/
def idsAdd (s : IdSet) (x : Nat) : IdSet :=
  if x ∈ s then s else s ++ [x]

/-- JS `Set.prototype.delete`. -/
def idsDelete (s : IdSet) (x : Nat) : IdSet :=
  s.filter (fun a => a != x)

/-- The full component state of `App()` in `App.jsx`, plus the persisted
`localStorage` token and whether a debounced search fetch is scheduled
(`pendingSearch` models the not-yet-fired `setTimeout` of the search
effect; the effect's cleanup cancelling it is modelled by the transitions
that overwrite it). -/
structure AppState where
  persistedToken : Option String
  token : Option String
  user : Option User
  page : Page
  recommendations : List Movie
  userRatings : RMap
  watchlist : List WatchlistEntry
  watchlistIds : IdSet
  searchQuery : String
  searchResults : List Movie
  selectedGenre : Option String
  genreResults : List Movie
  pendingSearch : Bool
  message : MsgType × String
deriving DecidableEq, Repr

/-- JS `String.prototype.trim()`: strip whitespace from both ends,
computed on the character list so that it evaluates by kernel reduction. -/
def jsTrim (s : String) : String :=
  String.mk (((s.data.dropWhile Char.isWhitespace).reverse.dropWhile
    Char.isWhitespace).reverse)

/-- The `ratingsMap` reduce of `fetchInitialData`:
`(data || []).reduce((acc, r) => { acc[r.movie_id] = r.score; return acc; }, {})`. -/
def buildRatingsMap (l : List (Nat × ℚ)) : RMap :=
  l.foldl (fun acc p => rmapSet acc p.1 p.2) []

/-- Modelled from the spec: the mapping `fetchUserRatings` must produce —
"discarding order (a later duplicate movie_id, if the backend ever sent
one, overwrites the earlier — last-wins)". The later (deeper in the list)
occurrence of a key wins. -/
def specLastWins : List (Nat × ℚ) → Nat → Option ℚ
  | [], _ => none
  | p :: rest, k =>
      match specLastWins rest k with
      | some v => some v
      | none => if p.1 = k then some p.2 else none

/-- Which branch of the display decision produced the shown list. -/
inductive ViewSource
  | searchRes
  | noResults
  | genreView
  | recsView
deriving DecidableEq, Repr

/-- The `moviesToDisplay` / `listTitle` decision of `App.jsx`
(lines 357-372), returning (branch, displayed collection, title). -/
def resolveView (searchQuery : String) (selectedGenre : Option String)
    (isLoading : Bool) (recommendations searchResults genreResults : List Movie) :
    ViewSource × List Movie × String :=
  if searchQuery ≠ "" ∧ searchResults ≠ [] then
    (.searchRes, searchResults, "Search Results for \"" ++ searchQuery ++ "\"")
  else if searchQuery ≠ "" ∧ isLoading = false then
    (.noResults, [], "No results found for \"" ++ searchQuery ++ "\"")
  else
    match selectedGenre with
    | some g => (.genreView, genreResults, "Movies in " ++ g)
    | none => (.recsView, recommendations, "Recommended For You")

/-- The `moviesToShow` decision of the earlier revision
(`src/unnamed/part_000`, line 129): `searchQuery.trim() ? searchResults :
recommendations`. -/
def moviesToShow (searchQuery : String)
    (recommendations searchResults : List Movie) : List Movie :=
  if jsTrim searchQuery ≠ "" then searchResults else recommendations

/-- The search `useEffect` of `App.jsx` (deps `[searchQuery, token]`),
run when a dependency changes. Returns the new state and whether a
debounced `GET /movies/?search=` was scheduled. Any previously scheduled
debounce is cancelled by the effect cleanup, hence `pendingSearch` is
overwritten in every branch. -/
def searchEffect (s : AppState) : AppState × Bool :=
  if jsTrim s.searchQuery = "" then
    ({ s with searchResults := [], pendingSearch := false }, false)
  else if s.token = none then
    ({ s with pendingSearch := false }, false)
  else
    ({ s with pendingSearch := true }, true)

/-- The `useEffect` on `[token]` (lines 138-150) for the `token = null`
case: clears user, recommendations, ratings, watchlist, watchlist ids, and
navigates to the login page. It does not touch search or genre state. -/
def tokenNoneEffect (s : AppState) : AppState :=
  { s with user := none, recommendations := [], userRatings := [],
           watchlist := [], watchlistIds := [], page := Page.login }

/-- The genre `useEffect` when it runs with no token available: with no
genre selected it clears `genreResults`; with a genre selected it returns
before fetching. -/
def genreEffectIdle (s : AppState) : AppState :=
  if s.selectedGenre = none then { s with genreResults := [] } else s

/-- `handleLogout` (lines 261-265): removes the persisted token and sets
the token state to `null`; when the token state actually changes, the
effects depending on `token` re-run in declaration order (the `[token]`
clearing effect, then the search effect, then the genre effect). -/
def handleLogout (s : AppState) : AppState :=
  let s1 := { s with persistedToken := none, token := none }
  if s.token.isSome then genreEffectIdle (searchEffect (tokenNoneEffect s1)).1
  else s1

/-- The genre `useEffect` (lines 184-209), run when a dependency changes,
with the settled result of `GET /movies/?genre=`. Selecting a genre clears
the search query synchronously before the fetch; clearing the search query
re-runs the search effect, which cancels any pending debounce and clears
the search results (folded into the same update). A 401 triggers
`handleLogout`. Returns the new state and whether a fetch was issued. -/
def genreEffect (s : AppState) (res : Except NetErr (List Movie)) :
    AppState × Bool :=
  match s.selectedGenre with
  | none => ({ s with genreResults := [] }, false)
  | some g =>
    if s.token = none then (s, false)
    else
      let s1 := { s with searchQuery := "", searchResults := [],
                         pendingSearch := false }
      match res with
      | .ok ms => ({ s1 with genreResults := ms }, true)
      | .error e =>
          let s2 := { s1 with
            message := (MsgType.error, "Could not load movies for " ++ g ++ ".") }
          (if e.code = 401 then handleLogout s2 else s2, true)

/-- `handleGenreSelect` (lines 308-314): clicking the selected genre again
deselects it, otherwise the clicked genre becomes selected. -/
def handleGenreSelect (s : AppState) (genre : String) : AppState :=
  if s.selectedGenre = some genre then { s with selectedGenre := none }
  else { s with selectedGenre := some genre }

/-- The primitive steps `handleRateMovie` performs, in order, so that the
relative order of the network write and the local map write is explicit. -/
inductive RateEv
  | callPost (movieId : Nat) (score : ℚ)
  | setRating (movieId : Nat) (score : ℚ)
  | setMsg (t : MsgType) (text : String)
  | doLogout
deriving DecidableEq, Repr

/-- The step sequence of `handleRateMovie` (lines 281-305), given the
token and the settled outcome of `POST /ratings/`. With no token it only
shows the log-in error. Otherwise it clears the banner, issues the POST,
and only in the success continuation writes the local ratings entry; in
the failure continuation it shows the error and, on a 401, logs out. -/
def rateTrace (tok : Option String) (movieId : Nat) (score : ℚ)
    (res : Except NetErr Unit) : List RateEv :=
  match tok with
  | none => [.setMsg MsgType.error "Please log in to rate movies."]
  | some _ =>
    [.setMsg MsgType.empty "", .callPost movieId score] ++
    match res with
    | .ok _ => [.setRating movieId score, .setMsg MsgType.success "Rating submitted!"]
    | .error e =>
        [.setMsg MsgType.error (e.detail.getD "Could not submit rating.")] ++
        (if e.code = 401 then [.doLogout] else [])

/-- State semantics of a single `handleRateMovie` step. -/
def applyRateEv (s : AppState) : RateEv → AppState
  | .callPost _ _ => s
  | .setRating movieId score =>
      { s with userRatings := rmapSet s.userRatings movieId score }
  | .setMsg t text => { s with message := (t, text) }
  | .doLogout => handleLogout s

/-- The network call, if any, of a `handleRateMovie` step. -/
def rateEvCall : RateEv → Option NetCall
  | .callPost movieId score => some (NetCall.postRatings movieId score)
  | _ => none

/-- Whether a step is the local ratings-map write. -/
def isSetRating : RateEv → Bool
  | .setRating _ _ => true
  | _ => false

/-- Whether a step is the backend POST. -/
def isCallPost : RateEv → Bool
  | .callPost _ _ => true
  | _ => false

/-- The final state of `handleRateMovie` on a settled outcome: fold the
step sequence over the state. -/
def handleRateMovie (s : AppState) (movieId : Nat) (score : ℚ)
    (res : Except NetErr Unit) : AppState :=
  (rateTrace s.token movieId score res).foldl applyRateEv s

/-- `handleAddToWatchlist` (lines 317-331) with the settled outcome of
`POST /watchlist/` (the created entry with embedded movie). `!movieId`
(JS falsiness of `0`/`undefined`) or a missing token short-circuits. On
success the list gains the returned entry and the id set gains the
argument id, together; on failure neither changes, and a 401 logs out.
Also returns the issued network calls. -/
def handleAddToWatchlist (s : AppState) (movieId : Nat)
    (res : Except NetErr WatchlistEntry) : AppState × List NetCall :=
  if movieId = 0 ∨ s.token = none then (s, [])
  else
    let s0 := { s with message := (MsgType.empty, "") }
    match res with
    | .ok entry =>
        ({ s0 with watchlist := s0.watchlist ++ [entry],
                   watchlistIds := idsAdd s0.watchlistIds movieId,
                   message := (MsgType.success,
                               entry.movie.title ++ " added to watchlist!") },
         [NetCall.postWatchlist movieId])
    | .error e =>
        let s1 := { s0 with
          message := (MsgType.error, e.detail.getD "Could not add to watchlist.") }
        (if e.code = 401 then handleLogout s1 else s1,
         [NetCall.postWatchlist movieId])

/-- `handleRemoveFromWatchlist` (lines 333-352) with the settled outcome
of `DELETE /watchlist/{movie_id}`. On success every entry whose embedded
movie id matches is removed from the list and the id is deleted from the
set, together; on failure neither changes, and a 401 logs out. -/
def handleRemoveFromWatchlist (s : AppState) (movieId : Nat)
    (res : Except NetErr Unit) : AppState × List NetCall :=
  if movieId = 0 ∨ s.token = none then (s, [])
  else
    let s0 := { s with message := (MsgType.empty, "") }
    match res with
    | .ok _ =>
        let movieTitle :=
          match s0.watchlist.find? (fun item => item.movie.id == movieId) with
          | some item => item.movie.title
          | none => "Movie"
        ({ s0 with watchlist := s0.watchlist.filter (fun item => item.movie.id != movieId),
                   watchlistIds := idsDelete s0.watchlistIds movieId,
                   message := (MsgType.success,
                               movieTitle ++ " removed from watchlist.") },
         [NetCall.deleteWatchlist movieId])
    | .error e =>
        let s1 := { s0 with
          message := (MsgType.error, e.detail.getD "Could not remove from watchlist.") }
        (if e.code = 401 then handleLogout s1 else s1,
         [NetCall.deleteWatchlist movieId])

/-- `fetchInitialData` (lines 64-114) with the settled joint outcome of the
four parallel GETs. With no persisted token it logs out and fetches
nothing. On success it stores the recommendations, reduces the ratings
list into the map, stores the watchlist and derives its id set from the
embedded movie ids, stores the user and shows the app page. On failure it
shows an error and additionally logs out on a 401. -/
def fetchInitialData (s : AppState)
    (res : Except NetErr
      (List Movie × List (Nat × ℚ) × List WatchlistEntry × User)) :
    AppState × List NetCall :=
  if s.persistedToken = none then (handleLogout s, [])
  else
    let s0 := { s with message := (MsgType.empty, "") }
    let calls := [NetCall.getRecs, NetCall.getRatings, NetCall.getWatchlist,
                  NetCall.getUser]
    match res with
    | .ok (recs, ratings, wl, u) =>
        ({ s0 with recommendations := recs,
                   userRatings := buildRatingsMap ratings,
                   watchlist := wl,
                   watchlistIds := wl.foldl (fun acc item => idsAdd acc item.movie.id) [],
                   user := some u,
                   page := Page.app },
         calls)
    | .error e =>
        let s1 := { s0 with
          message := (MsgType.error, "Could not load movie data. Please try again.") }
        if e.code = 401 then
          (handleLogout { s1 with
             message := (MsgType.error, "Session expired. Please log in again.") },
           calls)
        else (s1, calls)

/-- `handleLogin` (lines 214-244) with the settled outcome of
`POST /token/`: on success the token is persisted and set current and the
app page shown (the subsequent `fetchInitialData` call is modelled by
`fetchInitialData`). On failure the server `detail` (with the generic
fallback) is shown, the persisted token removed, and the token and user
state cleared; if the token state actually changes, the token-dependent
effects re-run as in `handleLogout`. -/
def handleLogin (s : AppState) (res : Except (Option String) String) : AppState :=
  let s0 := { s with message := (MsgType.empty, "") }
  match res with
  | .ok t =>
      { s0 with persistedToken := some t, token := some t, page := Page.app }
  | .error detail =>
      let s1 := { s0 with
        message := (MsgType.error, detail.getD "Invalid login credentials."),
        persistedToken := none, token := none, user := none }
      if s.token.isSome then genreEffectIdle (searchEffect (tokenNoneEffect s1)).1
      else s1

/-- A genre button click followed by the genre effect it triggers: the
composition of `handleGenreSelect` and the genre `useEffect`. -/
def genreSelectStep (s : AppState) (g : String)
    (res : Except NetErr (List Movie)) : AppState :=
  (genreEffect (handleGenreSelect s g) res).1

/-- A settled watchlist mutation: the operation with its network outcome. -/
inductive WlOp
  | add (movieId : Nat) (res : Except NetErr WatchlistEntry)
  | remove (movieId : Nat) (res : Except NetErr Unit)

/-- Apply a settled watchlist mutation to the state. -/
def wlStep (s : AppState) : WlOp → AppState
  | .add movieId res => (handleAddToWatchlist s movieId res).1
  | .remove movieId res => (handleRemoveFromWatchlist s movieId res).1

/-- Backend contract for a settled add: `POST /watchlist/` echoes an entry
whose embedded movie has the requested id. -/
def WlOp.wf : WlOp → Prop
  | .add movieId (.ok entry) => entry.movie.id = movieId
  | _ => True

/-- The watchlist pairing invariant: the id set holds exactly the embedded
movie ids of the list entries. -/
def paired (s : AppState) : Prop :=
  ∀ i, i ∈ s.watchlistIds ↔ i ∈ s.watchlist.map (fun e => e.movie.id)

/-- User-driven transitions of the search/genre sub-machine: typing into
the search box, clicking a genre button (with the settled genre fetch),
the debounced search fetch firing (with its settled result), and logging
out. Inputs rendered only on the app page are gated on a present token. -/
inductive UAct
  | typeSearch (q : String)
  | selectGenre (g : String) (res : Except NetErr (List Movie))
  | fireSearch (res : Except NetErr (List Movie))
  | actLogout

/-- One user-driven transition. `typeSearch` runs the search effect on the
new query; `selectGenre` runs `handleGenreSelect` then the genre effect;
`fireSearch` models the scheduled debounce body (lines 162-177): it clears
the genre state before awaiting, stores the results on success, and on a
401 logs out. -/
def uStep (s : AppState) : UAct → AppState
  | .typeSearch q =>
      if s.token = none then s
      else (searchEffect { s with searchQuery := q }).1
  | .selectGenre g res =>
      if s.token = none then s
      else genreSelectStep s g res
  | .fireSearch res =>
      if s.pendingSearch then
        let s1 := { s with selectedGenre := none, genreResults := [],
                           pendingSearch := false }
        match res with
        | .ok ms => { s1 with searchResults := ms }
        | .error e =>
            let s2 := { s1 with message := (MsgType.error, "Could not perform search.") }
            if e.code = 401 then handleLogout s2 else s2
      else s
  | .actLogout => handleLogout s

/-- Run a sequence of user-driven transitions. -/
def runU (s : AppState) (acts : List UAct) : AppState :=
  acts.foldl uStep s

/-- The freshly-authenticated state: a token present, every collection
empty, no search or genre input active. -/
def initState : AppState :=
  { persistedToken := some "tok", token := some "tok",
    user := some { id := 1, username := "alice", email := "alice@example.com" },
    page := Page.app,
    recommendations := [], userRatings := [], watchlist := [],
    watchlistIds := [], searchQuery := "", searchResults := [],
    selectedGenre := none, genreResults := [], pendingSearch := false,
    message := (MsgType.empty, "") }

/-- A sample movie for concrete evaluations. -/
def m0 : Movie :=
  { id := 7, title := "The Matrix", release_year := 1999,
    genres := "Action|Sci-Fi", description := "", poster_url := "" }

/-- A second sample movie. -/
def m1 : Movie :=
  { id := 9, title := "Dune", release_year := 2021,
    genres := "Sci-Fi", description := "", poster_url := "" }

/-- A sample watchlist entry whose embedded movie is `m0`. -/
def w0 : WatchlistEntry :=
  { id := 100, movie_id := 7, added_at := "2024-01-01", movie := m0 }

/-! ## Helper lemmas -/

/-- Trimming the empty string is the empty string. -/
theorem jsTrim_empty : jsTrim "" = "" := rfl

/-- JS object assignment updates exactly the assigned key. -/
theorem rmapLookup_set (m : RMap) (k : Nat) (v : ℚ) (j : Nat) :
    rmapLookup (rmapSet m k v) j = if j = k then some v else rmapLookup m j := by
  induction m with
  | nil =>
      by_cases h : j = k
      · subst h; simp [rmapSet, rmapLookup]
      · have h' : ¬ k = j := fun hh => h hh.symm
        simp [rmapSet, rmapLookup, h, h']
  | cons p rest ih =>
      by_cases hk : p.1 = k
      · by_cases h : j = k
        · subst h; simp [rmapSet, rmapLookup, hk]
        · have hpj : ¬ p.1 = j := fun hh => h ((hk.symm.trans hh).symm)
          have h' : ¬ k = j := fun hh => h hh.symm
          simp [rmapSet, rmapLookup, hk, h, h', hpj]
      · by_cases hj : p.1 = j
        · have h : ¬ j = k := fun hh => hk (hj.trans hh)
          simp [rmapSet, rmapLookup, hk, hj, h]
        · simp [rmapSet, rmapLookup, hk, hj, ih]

/-- Folding the ratings reduce over a prefix: the last occurrence in the
prefix wins, falling back to the accumulator. -/
theorem rmapLookup_foldl (l : List (Nat × ℚ)) (m : RMap) (k : Nat) :
    rmapLookup (l.foldl (fun acc p => rmapSet acc p.1 p.2) m) k =
      if (specLastWins l k).isSome then specLastWins l k else rmapLookup m k := by
  induction l generalizing m with
  | nil => simp [specLastWins]
  | cons p rest ih =>
      rw [List.foldl_cons, ih]
      cases hrest : specLastWins rest k with
      | some v => simp [specLastWins, hrest]
      | none =>
          by_cases hp : p.1 = k
          · simp [specLastWins, hrest, hp, rmapLookup_set]
          · have hp' : ¬ k = p.1 := fun hh => hp hh.symm
            simp [specLastWins, hrest, hp, hp', rmapLookup_set]

/-! ## Claims -/

/-- Claim C7: `fetchUserRatings`'s reduce turns the backend's ordered
`{movie_id, score}` list into a mapping in which order is discarded and a
later duplicate `movie_id` overwrites an earlier one — for every list of
pairs and every key, the built map's entry is the last occurrence's
score. -/
theorem c7_lastWins (l : List (Nat × ℚ)) (k : Nat) :
    rmapLookup (buildRatingsMap l) k = specLastWins l k := by
  unfold buildRatingsMap
  rw [rmapLookup_foldl]
  cases h : specLastWins l k <;> simp [rmapLookup]

/-- Claim C9: for every failed login attempt carrying a server-supplied
`detail`, `handleLogin` surfaces that reason as the error banner, removes
the persisted token, clears the current token, and clears the user. -/
theorem c9_login_failure (s : AppState) (d : String) :
    (handleLogin s (.error (some d))).message = (MsgType.error, d) ∧
    (handleLogin s (.error (some d))).persistedToken = none ∧
    (handleLogin s (.error (some d))).token = none ∧
    (handleLogin s (.error (some d))).user = none := by
  unfold handleLogin
  by_cases h : s.token.isSome
  · simp only [h, if_true]
    simp [genreEffectIdle, searchEffect, tokenNoneEffect]
    split_ifs <;> simp
  · simp [h]

/-- Claim C1 counterexample: rating is not optimistic in the code. Even on
a successful outcome the local map write does not precede the backend
POST in `handleRateMovie`'s step sequence, and after a non-authorization
failure (status 500) the ratings map holds no entry for the movie — the
claimed still-present optimistic value `4` is absent; only an error
banner is shown. -/
theorem c1_counterexample :
    ¬ ((rateTrace (some "t") 7 4 (.ok ())).findIdx isSetRating <
        (rateTrace (some "t") 7 4 (.ok ())).findIdx isCallPost) ∧
    rmapLookup (handleRateMovie initState 7 4
      (.error { code := 500, detail := none })).userRatings 7 ≠ some 4 ∧
    (handleRateMovie initState 7 4
      (.error { code := 500, detail := none })).message.1 = MsgType.error := by
  decide

/-- Logging out of an authenticated state performs the full fan-out:
both tokens cleared, and user, recommendations, ratings map, watchlist
list and watchlist id-set emptied. -/
theorem handleLogout_fanout (s : AppState) (h : s.token.isSome) :
    (handleLogout s).token = none ∧
    (handleLogout s).persistedToken = none ∧
    (handleLogout s).user = none ∧
    (handleLogout s).recommendations = [] ∧
    (handleLogout s).userRatings = [] ∧
    (handleLogout s).watchlist = [] ∧
    (handleLogout s).watchlistIds = [] := by
  unfold handleLogout tokenNoneEffect searchEffect genreEffectIdle
  simp only [h, if_true]
  split_ifs <;> simp

/-- Claim C1 (amended): with an active session, `handleRateMovie` issues
the backend POST first and writes the local ratings entry only in the
success continuation (the POST strictly precedes the map write in the
step sequence); on success the entry equals the submitted score; on a
non-authorization failure the ratings map is left unchanged — no
optimistic value was written, so none remains — with only an error
surfaced; and on an authorization failure (401) the full logout fan-out
occurs: the token, user, ratings map, watchlist list, watchlist id-set
and recommendations are all cleared. -/
theorem c1_amended (s : AppState) (mid : Nat) (sc : ℚ) (e : NetErr)
    (h : s.token.isSome) :
    (rateTrace s.token mid sc (.ok ())).findIdx isCallPost <
      (rateTrace s.token mid sc (.ok ())).findIdx isSetRating ∧
    rmapLookup (handleRateMovie s mid sc (.ok ())).userRatings mid = some sc ∧
    (e.code ≠ 401 →
      (handleRateMovie s mid sc (.error e)).userRatings = s.userRatings ∧
      (handleRateMovie s mid sc (.error e)).message.1 = MsgType.error) ∧
    (e.code = 401 →
      (handleRateMovie s mid sc (.error e)).token = none ∧
      (handleRateMovie s mid sc (.error e)).user = none ∧
      (handleRateMovie s mid sc (.error e)).userRatings = [] ∧
      (handleRateMovie s mid sc (.error e)).watchlist = [] ∧
      (handleRateMovie s mid sc (.error e)).watchlistIds = [] ∧
      (handleRateMovie s mid sc (.error e)).recommendations = []) := by
  obtain ⟨t, ht⟩ := Option.isSome_iff_exists.mp h
  refine ⟨?_, ?_, fun h401 => ?_, fun h401 => ?_⟩
  · simp [rateTrace, ht, isCallPost, isSetRating, List.findIdx, List.findIdx.go]
  · simp [handleRateMovie, rateTrace, ht, applyRateEv, rmapLookup_set]
  · constructor <;>
      simp [handleRateMovie, rateTrace, ht, applyRateEv, h401]
  · have hstep : handleRateMovie s mid sc (.error e) =
        handleLogout { s with
          message := (MsgType.error, e.detail.getD "Could not submit rating.") } := by
      simp [handleRateMovie, rateTrace, ht, applyRateEv, h401]
    have hfan := handleLogout_fanout
      { s with message := (MsgType.error, e.detail.getD "Could not submit rating.") }
      (by simpa using h)
    rw [hstep]
    exact ⟨hfan.1, hfan.2.2.1, hfan.2.2.2.2.1, hfan.2.2.2.2.2.1,
           hfan.2.2.2.2.2.2, hfan.2.2.2.1⟩

/-- Claim C1 witness: the amended claim evaluated at the fresh session,
movie 7, score 4, with a 500 failure (map unchanged) and a 401 failure
(logout fan-out: token and ratings cleared). -/
theorem c1_witness :
    rmapLookup (handleRateMovie initState 7 4 (.ok ())).userRatings 7 = some 4 ∧
    (handleRateMovie initState 7 4
      (.error { code := 500, detail := none })).userRatings = initState.userRatings ∧
    (handleRateMovie initState 7 4
      (.error { code := 401, detail := none })).token = none ∧
    (handleRateMovie initState 7 4
      (.error { code := 401, detail := none })).userRatings = [] :=
  ⟨(c1_amended initState 7 4 { code := 500, detail := none } (by decide)).2.1,
   ((c1_amended initState 7 4 { code := 500, detail := none } (by decide)).2.2.1
     (by decide)).1,
   ((c1_amended initState 7 4 { code := 401, detail := none } (by decide)).2.2.2
     (by decide)).1,
   ((c1_amended initState 7 4 { code := 401, detail := none } (by decide)).2.2.2
     (by decide)).2.2.1⟩

/-- Claim C3 counterexample: with `searchText = "Matrix"` non-empty,
empty `searchResults`, the loading flag set and a genre selected, the
displayed collection is the genre collection, not `searchResults` — the
claimed "displayed collection equals searchResults whenever searchText is
non-empty" fails. -/
theorem c3_counterexample :
    (resolveView "Matrix" (some "Action") true [] [] [m0]).1 = ViewSource.genreView ∧
    (resolveView "Matrix" (some "Action") true [] [] [m0]).2.1 = [m0] ∧
    (resolveView "Matrix" (some "Action") true [] [] [m0]).2.1 ≠ ([] : List Movie) := by
  decide

/-- Claim C3 (amended): the view resolution never takes a search branch
when `searchText` is empty and never the genre branch when no genre is
selected; and whenever `searchText` is non-empty, the displayed collection
equals `searchResults` provided `searchResults` is non-empty or the
loading flag is clear (in the loading state with empty search results the
code falls through to the genre/recommendations branch). -/
theorem c3_amended (q : String) (g : Option String) (isLoading : Bool)
    (recs sr gr : List Movie) :
    (q = "" → (resolveView q g isLoading recs sr gr).1 ≠ ViewSource.searchRes ∧
              (resolveView q g isLoading recs sr gr).1 ≠ ViewSource.noResults) ∧
    (g = none → (resolveView q g isLoading recs sr gr).1 ≠ ViewSource.genreView) ∧
    (q ≠ "" → (sr ≠ [] ∨ isLoading = false) →
      (resolveView q g isLoading recs sr gr).2.1 = sr) := by
  refine ⟨fun hq => ?_, fun hg => ?_, fun hq hd => ?_⟩
  · subst hq
    cases g <;> simp [resolveView]
  · subst hg
    unfold resolveView
    split_ifs <;> simp
  · unfold resolveView
    rcases hd with hsr | hload
    · simp [hq, hsr]
    · by_cases hsr : sr = []
      · subst hsr; simp [hq, hload]
      · simp [hq, hsr]

/-- Claim C3 witness: the amended claim at a non-empty query with
non-empty search results and a selected genre — the search results are
displayed regardless of the genre. -/
theorem c3_witness :
    ("Matrix" ≠ "") ∧
    (resolveView "Matrix" (some "Action") true [] [m1] [m0]).2.1 = [m1] :=
  ⟨by decide,
   (c3_amended "Matrix" (some "Action") true [] [m1] [m0]).2.2 (by decide)
     (Or.inl (by decide))⟩

/-- Claim C5 counterexample: a whitespace-only `searchText` is not
treated as empty by the display decision: with `searchText = " "`, no
search results, loading clear, and a genre selected, the view is the
empty no-results view, while the literally empty query falls through to
the genre collection. -/
theorem c5_counterexample :
    (resolveView " " (some "Action") false [m1] [] [m0]).1 = ViewSource.noResults ∧
    (resolveView " " (some "Action") false [m1] [] [m0]).2.1 = [] ∧
    (resolveView "" (some "Action") false [m1] [] [m0]).1 = ViewSource.genreView ∧
    (resolveView "" (some "Action") false [m1] [] [m0]).2.1 = [m0] := by
  decide

/-- Claim C5 (amended): for a whitespace-only (non-empty) `searchText`,
the search effect issues no fetch and clears the stored search results —
that part of the claim holds — but the `App.jsx` view resolution still
treats it as an active search and shows the empty no-results view rather
than falling through to genre or recommendations; only in the earlier
revision's `moviesToShow` does a whitespace query fall through to the
recommendations. -/
theorem c5_amended (q : String) (s : AppState) (g : Option String)
    (recs sr gr : List Movie) (h1 : q ≠ "") (h2 : jsTrim q = "") :
    (searchEffect { s with searchQuery := q }).2 = false ∧
    (searchEffect { s with searchQuery := q }).1.searchResults = [] ∧
    (resolveView q g false recs [] gr).1 = ViewSource.noResults ∧
    (resolveView q g false recs [] gr).2.1 = [] ∧
    moviesToShow q recs sr = recs := by
  refine ⟨?_, ?_, ?_, ?_, ?_⟩ <;>
    simp [searchEffect, resolveView, moviesToShow, h1, h2]

/-- Claim C5 witness: the amended claim at the single-space query. -/
theorem c5_witness :
    (searchEffect { initState with searchQuery := " " }).2 = false ∧
    (resolveView " " (some "Action") false [m1] [] [m0]).1 = ViewSource.noResults :=
  ⟨(c5_amended " " initState (some "Action") [m1] [] [m0] (by decide) (by decide)).1,
   (c5_amended " " initState (some "Action") [m1] [] [m0] (by decide) (by decide)).2.2.1⟩

/-- Claim C2 counterexample: logout does not empty all seven session
slices. Logging out of a state with an active search (`searchQuery =
"x"`, non-empty `searchResults`) clears the token but leaves the search
results in place — the token-change effect clears only user,
recommendations, ratings, watchlist and watchlist ids. -/
theorem c2_counterexample :
    (handleLogout { initState with searchQuery := "x", searchResults := [m0] }).token
      = none ∧
    (handleLogout { initState with searchQuery := "x", searchResults := [m0] }).searchResults
      = [m0] := by
  decide

/-- Claim C2 (amended): after logout from an authenticated state, the
client is unauthenticated (both tokens cleared) and the user,
recommendations, ratings map, watchlist list and watchlist id-set are
empty and the login page is shown; the search-result slice is emptied
only when the search text is blank and the genre-result slice only when
no genre is selected — with an active search or genre at logout, those
stale result slices persist (hidden behind the login page). -/
theorem c2_amended (s : AppState) (h : s.token.isSome) :
    (handleLogout s).token = none ∧
    (handleLogout s).persistedToken = none ∧
    (handleLogout s).user = none ∧
    (handleLogout s).recommendations = [] ∧
    (handleLogout s).userRatings = [] ∧
    (handleLogout s).watchlist = [] ∧
    (handleLogout s).watchlistIds = [] ∧
    (handleLogout s).page = Page.login ∧
    (jsTrim s.searchQuery = "" → (handleLogout s).searchResults = []) ∧
    (jsTrim s.searchQuery ≠ "" → (handleLogout s).searchResults = s.searchResults) ∧
    (s.selectedGenre = none → (handleLogout s).genreResults = []) ∧
    (s.selectedGenre ≠ none → (handleLogout s).genreResults = s.genreResults) := by
  unfold handleLogout
  simp only [h, if_true]
  unfold tokenNoneEffect searchEffect genreEffectIdle
  split_ifs <;> simp_all

/-- Claim C2 witness: the amended claim at a state with an active genre
filter and a blank search box. -/
theorem c2_witness :
    (handleLogout { initState with
       selectedGenre := some "Action"
       genreResults := [m0] }).watchlist = [] ∧
    (handleLogout { initState with
       selectedGenre := some "Action"
       genreResults := [m0] }).searchResults = [] :=
  ⟨(c2_amended { initState with
       selectedGenre := some "Action"
       genreResults := [m0] } (by decide)).2.2.2.2.2.1,
   (c2_amended { initState with
       selectedGenre := some "Action"
       genreResults := [m0] } (by decide)).2.2.2.2.2.2.2.2.1 (by decide)⟩

/-- Claim C10: clicking the currently selected genre deselects it — the
genre becomes unset, the genre effect then clears the genre results, and
with no search text the view resolves to the recommendations — while
clicking any other genre selects it. -/
theorem c10_genre_toggle (s : AppState) (g : String)
    (res : Except NetErr (List Movie)) (isLoading : Bool) :
    (s.selectedGenre = some g →
      (genreSelectStep s g res).selectedGenre = none ∧
      (genreSelectStep s g res).genreResults = [] ∧
      (s.searchQuery = "" →
        (resolveView (genreSelectStep s g res).searchQuery
           (genreSelectStep s g res).selectedGenre isLoading
           (genreSelectStep s g res).recommendations
           (genreSelectStep s g res).searchResults
           (genreSelectStep s g res).genreResults).1 = ViewSource.recsView ∧
        (resolveView (genreSelectStep s g res).searchQuery
           (genreSelectStep s g res).selectedGenre isLoading
           (genreSelectStep s g res).recommendations
           (genreSelectStep s g res).searchResults
           (genreSelectStep s g res).genreResults).2.1 = s.recommendations)) ∧
    (s.selectedGenre ≠ some g →
      (genreSelectStep s g res).selectedGenre = some g) := by
  constructor
  · intro hsel
    have hstep : genreSelectStep s g res =
        { s with selectedGenre := none, genreResults := [] } := by
      unfold genreSelectStep handleGenreSelect genreEffect
      simp [hsel]
    refine ⟨by simp [hstep], by simp [hstep], fun hq => ?_⟩
    simp [hstep, resolveView, hq]
  · intro hsel
    unfold genreSelectStep handleGenreSelect genreEffect
    simp only [hsel, if_false]
    by_cases ht : s.token = none
    · simp [ht]
    · simp only [ht, if_false]
      cases res with
      | ok ms => simp
      | error e =>
          by_cases h401 : e.code = 401
          · simp only [h401, if_true]
            unfold handleLogout tokenNoneEffect searchEffect genreEffectIdle
            split_ifs <;> simp_all
          · simp [h401]

/-- Claim C10 witness: toggling the selected genre off and selecting a
fresh genre, at concrete states. -/
theorem c10_witness :
    (genreSelectStep { initState with
        selectedGenre := some "Action"
        genreResults := [m0] } "Action" (.ok [m1])).selectedGenre = none ∧
    (genreSelectStep initState "Drama" (.ok [m1])).selectedGenre = some "Drama" :=
  ⟨((c10_genre_toggle { initState with
        selectedGenre := some "Action"
        genreResults := [m0] } "Action" (.ok [m1]) false).1 (by decide)).1,
   (c10_genre_toggle initState "Drama" (.ok [m1]) false).2 (by decide)⟩

/-- The logged-out state, for evaluating the short-circuit claim. -/
def outState : AppState :=
  { initState with token := none, persistedToken := none }

/-- Claim C8: in a state with no current (and no persisted) token, every
collection fetcher and every mutation short-circuits without issuing any
network call: `handleRateMovie` performs no POST and only surfaces the
log-in error, `handleAddToWatchlist` and `handleRemoveFromWatchlist`
return the state unchanged with no calls, the search effect schedules no
fetch, the genre effect fetches nothing, and `fetchInitialData` fetches
nothing. -/
theorem c8_short_circuit (s : AppState) (mid : Nat) (sc : ℚ)
    (resR : Except NetErr Unit) (resW : Except NetErr WatchlistEntry)
    (resD : Except NetErr Unit) (resG : Except NetErr (List Movie))
    (resI : Except NetErr
      (List Movie × List (Nat × ℚ) × List WatchlistEntry × User))
    (htok : s.token = none) (hper : s.persistedToken = none) :
    (rateTrace s.token mid sc resR).filterMap rateEvCall = [] ∧
    handleRateMovie s mid sc resR =
      { s with message := (MsgType.error, "Please log in to rate movies.") } ∧
    (handleAddToWatchlist s mid resW).2 = [] ∧
    (handleAddToWatchlist s mid resW).1 = s ∧
    (handleRemoveFromWatchlist s mid resD).2 = [] ∧
    (handleRemoveFromWatchlist s mid resD).1 = s ∧
    (searchEffect s).2 = false ∧
    (genreEffect s resG).2 = false ∧
    (fetchInitialData s resI).2 = [] := by
  refine ⟨?_, ?_, ?_, ?_, ?_, ?_, ?_, ?_, ?_⟩
  · simp [rateTrace, htok, rateEvCall]
  · simp [handleRateMovie, rateTrace, htok, applyRateEv]
  · simp [handleAddToWatchlist, htok]
  · simp [handleAddToWatchlist, htok]
  · simp [handleRemoveFromWatchlist, htok]
  · simp [handleRemoveFromWatchlist, htok]
  · unfold searchEffect
    split_ifs <;> simp_all
  · unfold genreEffect
    cases s.selectedGenre <;> simp [htok]
  · simp [fetchInitialData, hper]

/-- Claim C8 witness: the short-circuit claim at the logged-out state,
movie 7, score 4, with arbitrary would-be outcomes. -/
theorem c8_witness :
    (handleAddToWatchlist outState 7 (.ok w0)).2 = [] ∧
    (searchEffect outState).2 = false := by
  have h := c8_short_circuit outState 7 4 (.ok ()) (.ok w0) (.ok ())
    (.ok []) (.ok ([], [], [], { id := 1, username := "a", email := "e" }))
    rfl rfl
  exact ⟨h.2.2.1, h.2.2.2.2.2.2.1⟩

/-- Membership in the id set after a JS `Set.add`. -/
theorem mem_idsAdd (l : IdSet) (x i : Nat) : i ∈ idsAdd l x ↔ i ∈ l ∨ i = x := by
  unfold idsAdd
  split_ifs with h
  · exact ⟨Or.inl, fun h' => h'.elim id (fun hx => hx ▸ h)⟩
  · simp [List.mem_append]

/-- Membership in the id set after a JS `Set.delete`. -/
theorem mem_idsDelete (l : IdSet) (x i : Nat) :
    i ∈ idsDelete l x ↔ i ∈ l ∧ i ≠ x := by
  unfold idsDelete
  simp [List.mem_filter]

/-- Logging out of an authenticated state empties both watchlist slices. -/
theorem handleLogout_watchlist_empty (s : AppState) (h : s.token.isSome) :
    (handleLogout s).watchlist = [] ∧ (handleLogout s).watchlistIds = [] := by
  unfold handleLogout tokenNoneEffect searchEffect genreEffectIdle
  simp only [h, if_true]
  split_ifs <;> simp

/-- A single settled watchlist mutation preserves the pairing invariant. -/
theorem wlStep_paired (s : AppState) (op : WlOp) (hp : paired s)
    (hw : op.wf) : paired (wlStep s op) := by
  cases op with
  | add mid res =>
      simp only [wlStep]
      unfold handleAddToWatchlist
      dsimp only
      split_ifs with hguard
      · exact hp
      · push_neg at hguard
        have htok : s.token.isSome := Option.isSome_iff_ne_none.mpr hguard.2
        cases res with
        | ok entry =>
            intro i
            simp only [WlOp.wf] at hw
            simp only [List.map_append, List.map_cons, List.map_nil,
              List.mem_append, List.mem_singleton, mem_idsAdd, hw]
            exact ⟨fun h' => h'.elim (fun hh => Or.inl ((hp i).mp hh)) Or.inr,
                   fun h' => h'.elim (fun hh => Or.inl ((hp i).mpr hh)) Or.inr⟩
        | error e =>
            dsimp only
            split_ifs with h401
            · intro i
              have hcl := handleLogout_watchlist_empty
                { s with message :=
                    (MsgType.error, e.detail.getD "Could not add to watchlist.") }
                htok
              simp [hcl.1, hcl.2]
            · exact hp
  | remove mid res =>
      simp only [wlStep]
      unfold handleRemoveFromWatchlist
      dsimp only
      split_ifs with hguard
      · exact hp
      · push_neg at hguard
        have htok : s.token.isSome := Option.isSome_iff_ne_none.mpr hguard.2
        cases res with
        | ok u =>
            intro i
            simp only [mem_idsDelete, List.mem_map, List.mem_filter,
              bne_iff_ne, ne_eq]
            constructor
            · rintro ⟨hi, hne⟩
              obtain ⟨e, he, heq⟩ := List.mem_map.mp ((hp i).mp hi)
              exact ⟨e, ⟨he, fun hh => hne (heq ▸ hh ▸ rfl)⟩, heq⟩
            · rintro ⟨e, ⟨he, hne⟩, heq⟩
              exact ⟨(hp i).mpr (List.mem_map.mpr ⟨e, he, heq⟩),
                     fun hh => hne (heq.symm ▸ hh ▸ rfl)⟩
        | error e =>
            dsimp only
            split_ifs with h401
            · intro i
              have hcl := handleLogout_watchlist_empty
                { s with message :=
                    (MsgType.error, e.detail.getD "Could not remove from watchlist.") }
                htok
              simp [hcl.1, hcl.2]
            · exact hp

/-- Claim C4: for every sequence of settled watchlist add/remove
operations whose successful adds echo the requested movie id in the
created entry, the watchlist id-set equals exactly the set of embedded
movie ids of the watchlist entries after every operation — each mutation
updates the list and the set together or not at all. -/
theorem c4_pairing (ops : List WlOp) (s : AppState) (hp : paired s)
    (hw : ∀ op ∈ ops, op.wf) : paired (ops.foldl wlStep s) := by
  induction ops generalizing s with
  | nil => exact hp
  | cons op rest ih =>
      exact ih (wlStep s op) (wlStep_paired s op hp (hw op (by simp)))
        (fun o ho => hw o (List.mem_cons_of_mem op ho))

/-- Claim C4 witness: adding movie 7 (the server echoing entry `w0`) and
then removing it, starting from the fresh paired state. -/
theorem c4_witness :
    paired (List.foldl wlStep initState
      [WlOp.add 7 (.ok w0), WlOp.remove 7 (.ok ())]) :=
  c4_pairing [WlOp.add 7 (.ok w0), WlOp.remove 7 (.ok ())] initState
    (fun i => by simp [initState])
    (by
      intro op hop
      simp only [List.mem_cons, List.mem_singleton, List.not_mem_nil,
        or_false] at hop
      rcases hop with h | h
      · subst h; exact rfl
      · subst h; trivial)

/-- The mutual-exclusion invariant as it actually holds in the code: with
an authenticated session and no debounced search fetch pending, a
non-blank search text and a selected genre are not simultaneously
active. -/
def exclusionInv (s : AppState) : Prop :=
  s.token.isSome → s.pendingSearch = false →
    ¬(jsTrim s.searchQuery ≠ "" ∧ s.selectedGenre.isSome)

/-- The search effect never changes the token. -/
theorem searchEffect_token (s : AppState) : (searchEffect s).1.token = s.token := by
  unfold searchEffect
  split_ifs <;> rfl

/-- The idle genre effect never changes the token. -/
theorem genreEffectIdle_token (s : AppState) :
    (genreEffectIdle s).token = s.token := by
  unfold genreEffectIdle
  split_ifs <;> rfl

/-- Logging out always clears the token state. -/
theorem handleLogout_token (s : AppState) : (handleLogout s).token = none := by
  unfold handleLogout
  split_ifs
  · rw [genreEffectIdle_token, searchEffect_token]; rfl
  · rfl

/-- Every user-driven transition preserves the mutual-exclusion
invariant. -/
theorem uStep_exclusion (s : AppState) (a : UAct) (h : exclusionInv s) :
    exclusionInv (uStep s a) := by
  cases a with
  | typeSearch q =>
      simp only [uStep]
      split_ifs with ht
      · exact h
      · unfold searchEffect
        dsimp only
        split_ifs with h1
        · intro _ _ hboth
          exact hboth.1 h1
        · intro _ hpend _
          simp at hpend
  | selectGenre g res =>
      simp only [uStep]
      split_ifs with ht
      · exact h
      · unfold genreSelectStep handleGenreSelect
        by_cases hsel : s.selectedGenre = some g
        · simp only [hsel, if_true]
          unfold genreEffect
          dsimp only
          intro _ _ hboth
          simp at hboth
        · simp only [hsel, if_false]
          unfold genreEffect
          dsimp only [Option.isSome_some]
          simp only [ht, if_false]
          cases res with
          | ok ms =>
              intro _ _ hboth
              exact hboth.1 jsTrim_empty
          | error e =>
              dsimp only
              split_ifs with h401
              · intro htok _ _
                have := handleLogout_token
                  { s with selectedGenre := some g, searchQuery := "",
                           searchResults := [], pendingSearch := false,
                           message := (MsgType.error,
                             "Could not load movies for " ++ g ++ ".") }
                rw [this] at htok
                cases htok
              · intro _ _ hboth
                exact hboth.1 jsTrim_empty
  | fireSearch res =>
      simp only [uStep]
      split_ifs with hpend
      · cases res with
        | ok ms =>
            intro _ _ hboth
            simp at hboth
        | error e =>
            dsimp only
            split_ifs with h401
            · intro htok _ _
              rw [handleLogout_token] at htok
              cases htok
            · intro _ _ hboth
              simp at hboth
      · exact h
  | actLogout =>
      intro htok _ _
      simp only [uStep] at htok
      rw [handleLogout_token] at htok
      cases htok

/-- The invariant holds along every run. -/
theorem runU_exclusion (s : AppState) (acts : List UAct)
    (h : exclusionInv s) : exclusionInv (runU s acts) := by
  induction acts generalizing s with
  | nil => exact h
  | cons a rest ih => exact ih (uStep s a) (uStep_exclusion s a h)

/-- Claim C6 counterexample: search and genre are not mutually exclusive
in every reachable state. From the fresh session, selecting the genre
"Action" and then typing "Ma" reaches a state (stable until the 300ms
debounce fires) in which the search text is non-blank and a genre is
still selected — typing does not clear the genre until the debounced
fetch runs. -/
theorem c6_counterexample :
    jsTrim (runU initState
      [UAct.selectGenre "Action" (.ok [m0]), UAct.typeSearch "Ma"]).searchQuery
      ≠ "" ∧
    (runU initState
      [UAct.selectGenre "Action" (.ok [m0]), UAct.typeSearch "Ma"]).selectedGenre
      = some "Action" ∧
    (runU initState
      [UAct.selectGenre "Action" (.ok [m0]), UAct.typeSearch "Ma"]).pendingSearch
      = true := by
  decide

/-- Claim C6 (amended): along every run of user actions from the fresh
session, whenever the session is authenticated and no debounced search
fetch is pending, at most one of {non-blank search text, selected genre}
is active — the exclusion is restored once the debounce fires (which
clears the genre) or a genre is selected (which clears the search
synchronously); and whenever neither input is active, the resolved view
is the recommendations collection. -/
theorem c6_amended (acts : List UAct) (isLoading : Bool) :
    exclusionInv (runU initState acts) ∧
    ((runU initState acts).searchQuery = "" →
     (runU initState acts).selectedGenre = none →
      (resolveView (runU initState acts).searchQuery
         (runU initState acts).selectedGenre isLoading
         (runU initState acts).recommendations
         (runU initState acts).searchResults
         (runU initState acts).genreResults).1 = ViewSource.recsView ∧
      (resolveView (runU initState acts).searchQuery
         (runU initState acts).selectedGenre isLoading
         (runU initState acts).recommendations
         (runU initState acts).searchResults
         (runU initState acts).genreResults).2.1
        = (runU initState acts).recommendations) := by
  constructor
  · exact runU_exclusion initState acts (by intro _ _ hboth; exact hboth.1 rfl)
  · intro hq hg
    simp [resolveView, hq, hg]

/-- Claim C6 witness: once the debounced search fires, the genre is
cleared and the exclusion holds at the reached concrete state. -/
theorem c6_witness :
    ¬(jsTrim (runU initState [UAct.selectGenre "Action" (.ok [m0]),
        UAct.typeSearch "Ma", UAct.fireSearch (.ok [m1])]).searchQuery ≠ "" ∧
      (runU initState [UAct.selectGenre "Action" (.ok [m0]),
        UAct.typeSearch "Ma", UAct.fireSearch (.ok [m1])]).selectedGenre.isSome) :=
  (c6_amended [UAct.selectGenre "Action" (.ok [m0]),
    UAct.typeSearch "Ma", UAct.fireSearch (.ok [m1])] false).1
    (by decide) (by decide)
